import Mathlib

/-!
Verification development for the sbackend session / channel-synchronization
layer.

The definitions below are a shallow embedding of the JavaScript sources:

* `src/services/userchannelsupdateservice.js` — the synchronization service
  (`_updateRedisSession`, `syncTelegramChannelsCount`,
  `syncTelegramChannelsData`, `handleNewTelegramBot`,
  `handleDeletedTelegramBot`);
* `src/config/redis.js` — the Redis wrapper (`set`, `get`, `del`, `keys`,
  `expire`); Redis `SET` without `EX`/`KEEPTTL` clears any existing TTL,
  which the store model encodes;
* `src/routes/session.js` — `createSession` (whose `{ EX: 604800 }` option
  the config/redis.js `set` wrapper silently discards — the wrapper takes
  only `(key, value)` — so the record is stored with no TTL),
  `validateSession`, and the `isAuthenticated` middleware (rolling expiry
  via `EXPIRE key 604800`);
* `src/services/auth-service/services/redisService.js` — `getSession`,
  `storeUserData`;
* `src/routes/auth.js` — `generateDeviceFingerprint` and the `/logout`
  handler; `src/services/auth-service/controllers/authController.js` —
  `generateDeviceId`.

JavaScript objects are modelled as association lists with first-key lookup
and in-place update (JSON-parsed objects have unique keys); machine-level
hashing (md5/sha256) is modelled by its preimage string, since a
deterministic hash yields equal outputs exactly when fed equal preimages.
-/

set_option autoImplicit false

namespace SBackend

/-! ## JSON-ish payload model -/

/-- One element of the `channels` summary written by `_updateRedisSession`:
`{ name: channel.botName || channel.name, type: channel.channelType }`. -/
structure ChanSummary where
  name : String
  type : String
deriving DecidableEq, Repr

/-- JSON values that occur in session payloads. -/
inductive JVal where
  | num (n : Nat)
  | str (s : String)
  | chans (cs : List ChanSummary)
deriving DecidableEq, Repr

/-- A JSON object: association list of fields, first-key lookup. -/
abbrev Obj := List (String × JVal)

/-- Field lookup in a JSON object. -/
def getField : Obj → String → Option JVal
  | [], _ => none
  | (k, v) :: rest, f => if k = f then some v else getField rest f

/-- Field overwrite, as performed by object spread `{...o, k: v}`: replaces
the value at an existing key in place, appends the key otherwise. -/
def setField : Obj → String → JVal → Obj
  | [], k, v => [(k, v)]
  | (k0, v0) :: rest, k, v =>
      if k0 = k then (k, v) :: rest else (k0, v0) :: setField rest k v

/-! ## Domain records -/

/-- The `usage` sub-document of a channel. -/
structure Usage where
  messagesSent : Nat
  activeUsers : Nat
  errors : Nat
deriving DecidableEq, Repr

/-- A channel embedded in the user document (`user.channels` entries). Legacy
non-Telegram entries may carry `name` instead of `botName`; absent string
fields are modelled as `""` (both are falsy in JavaScript). -/
structure Channel where
  channelType : String
  channelUserId : String
  botToken : String
  botName : String
  name : String
  usage : Usage
  createdAt : Nat
  updatedAt : Nat
deriving DecidableEq, Repr

/-- An authoritative `TelegramChannel` document; `id` is `_id.toString()`. -/
structure TChan where
  id : String
  botToken : String
  botName : String
  usage : Usage
  createdAt : Nat
  updatedAt : Nat
deriving DecidableEq, Repr

/-- The slice of the `User` document used by the synchronization service. -/
structure UserDoc where
  channels : List Channel
  channelsCount : Nat
deriving DecidableEq, Repr

/-! ## Redis store model

One entry per key; `ttl = none` means the key has no expiry. Redis keys are
unique, so stores of interest have no duplicate keys (`rWF`). -/

/-- One Redis key with its stored session payload and TTL state. -/
structure Entry where
  key : String
  val : Obj
  ttl : Option Nat
deriving DecidableEq, Repr

abbrev Store := List Entry

/-- Well-formed store: Redis keys are unique. -/
def rWF (st : Store) : Prop := (st.map Entry.key).Nodup

instance (st : Store) : Decidable (rWF st) :=
  inferInstanceAs (Decidable ((st.map Entry.key).Nodup))

/-- `GET key`. -/
def rGet : Store → String → Option Obj
  | [], _ => none
  | e :: rest, k => if e.key = k then some e.val else rGet rest k

/-- TTL state of a key: `none` if absent, `some none` if present without
expiry, `some (some t)` if present with t seconds to live. -/
def rGetTtl : Store → String → Option (Option Nat)
  | [], _ => none
  | e :: rest, k => if e.key = k then some e.ttl else rGetTtl rest k

/-- Plain `SET key value` (config/redis.js `set`, and the bare
`client.set(sessionKey, ...)` in `_updateRedisSession`): overwrites the value
and clears any TTL the key had. -/
def rSet : Store → String → Obj → Store
  | [], k, v => [⟨k, v, none⟩]
  | e :: rest, k, v => if e.key = k then ⟨k, v, none⟩ :: rest else e :: rSet rest k v

/-- `SET key value EX seconds`. -/
def rSetEx : Store → String → Obj → Nat → Store
  | [], k, v, t => [⟨k, v, some t⟩]
  | e :: rest, k, v, t =>
      if e.key = k then ⟨k, v, some t⟩ :: rest else e :: rSetEx rest k v t

/-- `DEL key`. -/
def rDel (st : Store) (k : String) : Store := st.filter (fun e => !(e.key == k))

/-- Does a key match the glob `${userId}:*` used by `client.keys`? The
prefix test is on the character lists so that it evaluates by `decide`. -/
def matchesOwner (userId : String) (k : String) : Bool :=
  List.isPrefixOf (userId ++ ":").data k.data

/-- `KEYS ${userId}:*`: all live session keys of the owner, in store order. -/
def keysMatching (userId : String) (st : Store) : List String :=
  (st.filter (fun e => matchesOwner userId e.key)).map Entry.key

/-! ## `_updateRedisSession` (userchannelsupdateservice.js lines 15-62) -/

/-- `channel.botName || channel.name` (empty string is falsy). -/
def chanDisplayName (c : Channel) : String :=
  if c.botName = "" then c.name else c.botName

/-- The `channels` summary array computed once per fan-out (lines 31-34). -/
def chanSummaries (u : UserDoc) : List ChanSummary :=
  u.channels.map (fun c => ⟨chanDisplayName c, c.channelType⟩)

/-- `userDoc.channelsCount || userDoc.channels.length` (line 36). -/
def channelCount (u : UserDoc) : Nat :=
  if u.channelsCount = 0 then u.channels.length else u.channelsCount

/-- The per-session merge (lines 46-52): spread of the old payload with the
two summary fields overwritten. -/
def updateSessionObj (cnt : Nat) (chs : List ChanSummary) (o : Obj) : Obj :=
  setField (setField o "channelsCount" (.num cnt)) "channels" (.chans chs)

/-- The `for (const sessionKey of sessionKeys)` loop (lines 39-57). `fails k`
models `client.set` throwing for key `k`; the thrown error escapes the loop,
so the remaining keys are not visited. Returns the (partially) updated store
and whether the loop aborted. -/
def updateLoop (fails : String → Bool) (cnt : Nat) (chs : List ChanSummary) :
    List String → Store → Store × Bool
  | [], st => (st, false)
  | k :: rest, st =>
    match rGet st k with
    | none => updateLoop fails cnt chs rest st
    | some o =>
      if fails k then (st, true)
      else updateLoop fails cnt chs rest (rSet st k (updateSessionObj cnt chs o))

/-- `_updateRedisSession` (lines 15-62): enumerate the owner's session keys,
rewrite each payload; the surrounding try/catch logs any error and swallows
it, so the function always returns normally with whatever writes happened. -/
def updateRedisSession (fails : String → Bool) (userId : String) (u : UserDoc)
    (st : Store) : Store :=
  let ks := keysMatching userId st
  if ks.isEmpty then st
  else (updateLoop fails (channelCount u) (chanSummaries u) ks st).1

/-- No fan-out write fails. -/
def noFail : String → Bool := fun _ => false

/-! ## Synchronization service state and operations -/

/-- State visible to the synchronization service: the authoritative
`TelegramChannel` collection for the owner, the owner's `User` document
(`none` models user-not-found), and the Redis store. -/
structure SyncState where
  tchans : List TChan
  user : Option UserDoc
  store : Store
deriving DecidableEq, Repr

/-- Return value of `syncTelegramChannelsCount`. -/
structure CountResult where
  success : Bool
  userId : String
  channelsCount : Nat
deriving DecidableEq, Repr

/-- `syncTelegramChannelsCount` (lines 68-98). The extra `Bool` in the result
records whether the authoritative `user.save()` write happened. -/
def syncTelegramChannelsCount (fails : String → Bool) (userId : String)
    (s : SyncState) : Except String (SyncState × Bool × CountResult) :=
  let telegramChannelsCount := s.tchans.length
  match s.user with
  | none => .error ("User not found with ID: " ++ userId)
  | some user =>
    if user.channelsCount ≠ telegramChannelsCount then
      let user1 : UserDoc := { user with channelsCount := telegramChannelsCount }
      .ok ({ s with user := some user1,
                    store := updateRedisSession fails userId user1 s.store },
           true, ⟨true, userId, telegramChannelsCount⟩)
    else
      .ok (s, false, ⟨true, userId, telegramChannelsCount⟩)

/-- The `channelData` object built from a `TelegramChannel` document
(lines 132-144 and the push in `handleNewTelegramBot`, lines 242-254). -/
def buildChan (tc : TChan) : Channel :=
  { channelType := "Telegram", channelUserId := tc.id, botToken := tc.botToken,
    botName := tc.botName, name := "",
    usage := ⟨tc.usage.messagesSent, tc.usage.activeUsers, tc.usage.errors⟩,
    createdAt := tc.createdAt, updatedAt := tc.updatedAt }

/-- Predicate `c.channelType === 'Telegram' && c.channelUserId === id`. -/
def isTelWith (id : String) (c : Channel) : Bool :=
  c.channelType == "Telegram" && c.channelUserId == id

/-- Lookup in the `existingChannels` Map (lines 113-121): built by
`forEach` + `Map.set`, so the last Telegram channel with the given
`channelUserId` wins. -/
def existingChannel (chs : List Channel) (id : String) : Option Channel :=
  chs.reverse.find? (isTelWith id)

/-- The change comparison of lines 155-161. -/
def channelDataChanged (oldData channelData : Channel) : Bool :=
  oldData.botName != channelData.botName ||
  oldData.usage.messagesSent != channelData.usage.messagesSent ||
  oldData.usage.activeUsers != channelData.usage.activeUsers ||
  oldData.usage.errors != channelData.usage.errors ||
  oldData.updatedAt != channelData.updatedAt

/-- Body of the `for (const tc of telegramChannels)` loop (lines 130-170);
the Map lookup is against the original `user.channels` (`chs`). -/
def syncDataStep (chs : List Channel) (acc : List Channel × Bool) (tc : TChan) :
    List Channel × Bool :=
  let channelData := buildChan tc
  match existingChannel chs tc.id with
  | none => (acc.1 ++ [channelData], true)
  | some oldData =>
    if channelDataChanged oldData channelData then (acc.1 ++ [channelData], true)
    else (acc.1 ++ [oldData], acc.2)

/-- Return value of `syncTelegramChannelsData`. -/
structure DataResult where
  success : Bool
  userId : String
  channelsCount : Nat
  telegramChannelsCount : Nat
deriving DecidableEq, Repr

/-- `syncTelegramChannelsData` (lines 104-196); the `Bool` records whether
the authoritative `user.save()` write happened. -/
def syncTelegramChannelsData (fails : String → Bool) (userId : String)
    (s : SyncState) : Except String (SyncState × Bool × DataResult) :=
  match s.user with
  | none => .error ("User not found with ID: " ++ userId)
  | some user =>
    let updatedStart := user.channels.filter (fun c => !(c.channelType == "Telegram"))
    let folded := s.tchans.foldl (syncDataStep user.channels) (updatedStart, false)
    if folded.2 = true ∨ user.channels.length ≠ folded.1.length then
      let user1 : UserDoc := { channels := folded.1, channelsCount := folded.1.length }
      .ok ({ s with user := some user1,
                    store := updateRedisSession fails userId user1 s.store },
           true, ⟨true, userId, folded.1.length, s.tchans.length⟩)
    else
      .ok (s, false, ⟨true, userId, user.channelsCount, s.tchans.length⟩)

/-- Return value of the two mutation handlers. -/
structure HandleResult where
  success : Bool
  message : String
  channelsCount : Nat
deriving DecidableEq, Repr

/-- `handleNewTelegramBot` (lines 228-276). -/
def handleNewTelegramBot (fails : String → Bool) (userId : String) (tc : TChan)
    (s : SyncState) : Except String (SyncState × HandleResult) :=
  match s.user with
  | none => .error ("User not found with ID: " ++ userId)
  | some user =>
    let botExists := user.channels.any (isTelWith tc.id)
    if botExists = false then
      let chans1 := user.channels ++ [buildChan tc]
      let user1 : UserDoc := { channels := chans1, channelsCount := chans1.length }
      .ok ({ s with user := some user1,
                    store := updateRedisSession fails userId user1 s.store },
           ⟨true, "User updated with new Telegram bot", user1.channelsCount⟩)
    else
      .ok (s, ⟨true, "Bot already exists", user.channelsCount⟩)

/-- `handleDeletedTelegramBot` (lines 283-317): `findIndex` + `splice(idx, 1)`. -/
def handleDeletedTelegramBot (fails : String → Bool) (userId : String)
    (botId : String) (s : SyncState) : Except String (SyncState × HandleResult) :=
  match s.user with
  | none => .error ("User not found with ID: " ++ userId)
  | some user =>
    match user.channels.findIdx? (isTelWith botId) with
    | some idx =>
      let chans1 := user.channels.eraseIdx idx
      let user1 : UserDoc := { channels := chans1, channelsCount := chans1.length }
      .ok ({ s with user := some user1,
                    store := updateRedisSession fails userId user1 s.store },
           ⟨true, "User updated after Telegram bot deletion", user1.channelsCount⟩)
    | none =>
      .ok (s, ⟨true, "Bot not found", user.channelsCount⟩)

/-! ## Session store (routes/session.js, redisService.js) -/

/-- The 7-day TTL that `createSession` requests (`{ EX: 604800 }`, matching
the cookie maxAge). The config/redis.js `set` wrapper discards the options
argument, so this value never reaches Redis. -/
def SESSION_TTL_SECONDS : Nat := 604800

/-- Rolling TTL applied by the `isAuthenticated` middleware:
`expire(redisCacheKey, 7 * 24 * 60 * 60)`. -/
def ROLLING_TTL_SECONDS : Nat := 7 * 24 * 60 * 60

/-- 1-day TTL used by `storeUserData` (`{ ex: 86400 }`). -/
def STORE_USER_TTL_SECONDS : Nat := 86400

/-- The cache key `session:${sessionToken}`. -/
def sessionKey (token : String) : String := "session:" ++ token

/-- The `sessionData` object assembled by `createSession` (lines 35-42). -/
structure SessionUserData where
  userId : String
  email : String
  deviceFingerprint : String
  botsCount : Nat
  channelsCount : Nat
  lastLogin : String
deriving DecidableEq, Repr

/-- JSON serialization of the `createSession` payload. -/
def sessionPayload (d : SessionUserData) : Obj :=
  [("userId", .str d.userId), ("email", .str d.email),
   ("deviceFingerprint", .str d.deviceFingerprint),
   ("botsCount", .num d.botsCount), ("channelsCount", .num d.channelsCount),
   ("lastLogin", .str d.lastLogin)]

/-- `createSession` (routes/session.js lines 33-54): the freshly generated
`crypto.randomBytes(32)` token is a parameter. Line 44 passes
`{ EX: 604800 }`, but the config/redis.js wrapper it calls is
`set: async (key, value) => await client.set(key, value)`: the options
argument is discarded, so the record is stored at `session:<token>` by a
plain `SET` with no TTL. -/
def createSession (token : String) (d : SessionUserData) (st : Store) : Store :=
  rSet st (sessionKey token) (sessionPayload d)

/-- `storeUserData` (redisService.js lines 39-60): persists the session
record at `session:<token>` with `ex: 86400`. The workspace bookkeeping in
the same function writes only non-session keys (`workspace:*`) and is not
modelled. -/
def storeUserData (token : String) (userData : Obj) (st : Store) : Store :=
  rSetEx st (sessionKey token) userData STORE_USER_TTL_SECONDS

/-- Absolute expiry of a record whose TTL was set to `ttl` seconds at
absolute time `t` (seconds). -/
def expiryFrom (t ttl : Nat) : Nat := t + ttl

/-- Expiry produced by the `isAuthenticated` refresh executed at time `t`
(routes/session.js line 151). -/
def refreshExpiresAt (t : Nat) : Nat := expiryFrom t ROLLING_TTL_SECONDS

/-! ## Stored-value parsing and the identity resolver

`JSON.parse` of a stored string either yields an object or throws; the sum
type distinguishes parsable payloads from corrupt ones. -/

/-- A raw string stored in the cache, as seen by `JSON.parse`. -/
inductive StoredVal where
  | json (o : Obj)
  | corrupt (s : String)
deriving DecidableEq, Repr

abbrev KV := List (String × StoredVal)

/-- `GET` on the raw-string store. -/
def kvGet : KV → String → Option StoredVal
  | [], _ => none
  | (k, v) :: rest, f => if k = f then some v else kvGet rest f

/-- `JSON.parse`: succeeds exactly on parsable payloads, throws otherwise. -/
def jsonParse : StoredVal → Except String Obj
  | .json o => .ok o
  | .corrupt _ => .error "SyntaxError: Unexpected token"

/-- `getSession` (redisService.js lines 17-26): `up = false` models a backend
outage (`redis.get` throws). The try/catch logs and RETHROWS (`throw err`),
so a `JSON.parse` failure on a present payload escapes as an error. -/
def getSession (up : Bool) (st : KV) (sessionToken : String) :
    Except String (Option Obj) :=
  if up = false then .error "StorageUnavailable"
  else
    match kvGet st (sessionKey sessionToken) with
    | none => .ok none
    | some v =>
      match jsonParse v with
      | .ok o => .ok (some o)
      | .error e => .error e

/-- Outcome of the `validateSession` middleware. -/
inductive ResolveOutcome where
  | unauthorized (message : String)
  | serverError (message : String)
  | proceed (session : Obj)
deriving DecidableEq, Repr

/-- `validateSession` (routes/session.js lines 12-30): missing cookie or
missing payload end in 401; any throw inside the try — a backend outage or a
`JSON.parse` failure — is caught and ends in 500. -/
def validateSession (up : Bool) (st : KV) (cookieToken : Option String) :
    ResolveOutcome :=
  match cookieToken with
  | none => .unauthorized "Unauthorized: No session token"
  | some tok =>
    if up = false then .serverError "Server error during session validation"
    else
      match kvGet st (sessionKey tok) with
      | none => .unauthorized "Session expired or invalid"
      | some v =>
        match jsonParse v with
        | .ok o => .proceed o
        | .error _ => .serverError "Server error during session validation"

/-! ## Device fingerprints (auth.js, authController.js)

md5/sha256 are deterministic one-way hashes; they are modelled by their
preimage strings: two calls return the same digest iff they hash the same
preimage (collisions aside, equal preimages are what determinism is about). -/

/-- Client-supplied device attributes; absent fields are `''` (falsy). -/
structure DeviceInfo where
  deviceType : String
  deviceName : String
  userAgent : String
  platform : String
  screenResolution : String
  timezone : String
  language : String
  deviceUniqueId : String
  browser : String
  os : String
deriving DecidableEq, Repr

/-- The string hashed by `generateDeviceFingerprint` (routes/auth.js lines
33-36): a plain concatenation of four attributes, no salt, no nonce. -/
def fingerprintHashedData (d : DeviceInfo) : String :=
  d.deviceName ++ d.browser ++ d.os ++ d.deviceType

/-- The string hashed by `generateDeviceId` (authController.js lines 8-22):
the attribute tuple joined with `|`, plus `userSpecificInfo` and `nonce`,
where `nonce` is the `crypto.randomBytes(8).toString('hex')` value drawn
afresh on every call (line 19). -/
def deviceIdHashedData (d : DeviceInfo) (userSpecificInfo : String)
    (nonce : String) : String :=
  d.deviceType ++ "|" ++ d.deviceName ++ "|" ++ d.userAgent ++ "|" ++
  d.platform ++ "|" ++ d.screenResolution ++ "|" ++ d.timezone ++ "|" ++
  d.language ++ "|" ++ d.deviceUniqueId ++ "|" ++ userSpecificInfo ++ "|" ++ nonce

/-! ## The auth-service logout handler (routes/auth.js lines 431-453) -/

/-- The request fields the logout handler consults. `userId` and
`sessionToken` are whatever earlier middleware attached to `req`. -/
structure AuthRequest where
  userId : Option String
  sessionToken : Option String
  redisOpen : Bool
deriving DecidableEq, Repr

/-- The handler's observable response. -/
structure LogoutResponse where
  status : Nat
  success : Bool
  clearedSessionCookie : Bool
deriving DecidableEq, Repr

/-- `router.post('/logout')` (routes/auth.js lines 431-453): always clears
the cookie and answers 200/success; deletes the Redis record only when BOTH
`req.userId` and `req.sessionToken` are attached (and the client is open). -/
def logoutHandler (req : AuthRequest) (st : Store) : LogoutResponse × Store :=
  let st1 :=
    match req.userId, req.sessionToken with
    | some uid, some tok =>
        if req.redisOpen then rDel st (uid ++ ":" ++ tok) else st
    | _, _ => st
  (⟨200, true, true⟩, st1)

/-- A request reaching `/api/auth/logout`: the route is registered without
any middleware, and no `app.use` middleware on the auth apps attaches
`userId` or `sessionToken` (they only attach `redisClient`, CORS, parsers),
so both fields are absent. -/
def bareAuthRequest (redisOpen : Bool) : AuthRequest :=
  ⟨none, none, redisOpen⟩

/-! ## Derived forms used by the lemmas -/

/-- `EXPIRE key seconds`: resets the TTL of a present key, no-op if absent. -/
def rExpire (st : Store) (k : String) (t : Nat) : Store :=
  st.map (fun e => if e.key = k then ⟨e.key, e.val, some t⟩ else e)

/-- What the fan-out does to a single store entry when no write fails:
matching keys get the merged payload and lose their TTL, others are
untouched. Closed form of `updateRedisSession noFail`, proved below. -/
def fanoutEntry (userId : String) (cnt : Nat) (chs : List ChanSummary)
    (e : Entry) : Entry :=
  if matchesOwner userId e.key then ⟨e.key, updateSessionObj cnt chs e.val, none⟩
  else e

/-- The channel that `syncTelegramChannelsData` emits for one authoritative
`TelegramChannel`: the fresh `channelData` if the channel is new or changed,
the retained `oldData` otherwise. Closed form of one `syncDataStep`. -/
def chanOut (chs : List Channel) (tc : TChan) : Channel :=
  match existingChannel chs tc.id with
  | none => buildChan tc
  | some oldData =>
      if channelDataChanged oldData (buildChan tc) then buildChan tc else oldData

/-- Whether `syncTelegramChannelsData` counts one authoritative channel as
changed. Closed form of the `hasChanges` contribution of one step. -/
def chanChangedFlag (chs : List Channel) (tc : TChan) : Bool :=
  match existingChannel chs tc.id with
  | none => true
  | some oldData => channelDataChanged oldData (buildChan tc)

/-- State after `handleNewTelegramBot`, discarding the JSON reply. -/
def afterNew (userId : String) (tc : TChan) (s : SyncState) :
    Except String SyncState :=
  (handleNewTelegramBot noFail userId tc s).map Prod.fst

/-- State after `handleDeletedTelegramBot`, discarding the JSON reply. -/
def afterDel (userId : String) (botId : String) (s : SyncState) :
    Except String SyncState :=
  (handleDeletedTelegramBot noFail userId botId s).map Prod.fst

/-- Rewrite one entry if its key is `k` (effect of one loop iteration). -/
def replOne (k : String) (U : Obj → Obj) (e : Entry) : Entry :=
  if e.key = k then ⟨e.key, U e.val, none⟩ else e

/-- Rewrite one entry if its key lies in `ks` (effect of a loop prefix). -/
def replIn (ks : List String) (U : Obj → Obj) (e : Entry) : Entry :=
  if e.key ∈ ks then ⟨e.key, U e.val, none⟩ else e

/-! ## Object-level lemmas -/

theorem getField_setField_self (o : Obj) (k : String) (v : JVal) :
    getField (setField o k v) k = some v := by
  induction o with
  | nil => simp [setField, getField]
  | cons p rest ih =>
    obtain ⟨k0, v0⟩ := p
    by_cases h : k0 = k
    · simp [setField, h, getField]
    · simp [setField, h, getField, ih]

theorem getField_setField_ne (o : Obj) (k f : String) (v : JVal) (h : k ≠ f) :
    getField (setField o k v) f = getField o f := by
  induction o with
  | nil => simp [setField, getField, h]
  | cons p rest ih =>
    obtain ⟨k0, v0⟩ := p
    by_cases h0 : k0 = k
    · simp [setField, getField, h0, h, Ne.symm h]
    · by_cases h1 : k0 = f
      · simp [setField, getField, h0, h1, Ne.symm h]
      · simp [setField, getField, h0, h1, ih]

theorem setField_setField_self (o : Obj) (k : String) (v1 v2 : JVal) :
    setField (setField o k v1) k v2 = setField o k v2 := by
  induction o with
  | nil => simp [setField]
  | cons p rest ih =>
    obtain ⟨k0, v0⟩ := p
    by_cases h : k0 = k
    · simp [setField, h]
    · simp [setField, h, ih]

theorem setField_swap_set (o : Obj) (A B : String) (x1 y1 x2 : JVal)
    (hAB : A ≠ B) :
    setField (setField (setField o A x1) B y1) A x2
      = setField (setField o A x2) B y1 := by
  induction o with
  | nil => simp [setField, hAB]
  | cons p rest ih =>
    obtain ⟨k0, v0⟩ := p
    by_cases hA : k0 = A
    · simp [setField, hA, hAB]
    · by_cases hB : k0 = B
      · simp [setField, hA, hB, Ne.symm hAB, setField_setField_self]
      · simp [setField, hA, hB, ih]

theorem updateSessionObj_absorb (c1 c2 : Nat) (l1 l2 : List ChanSummary)
    (o : Obj) :
    updateSessionObj c2 l2 (updateSessionObj c1 l1 o) = updateSessionObj c2 l2 o := by
  unfold updateSessionObj
  rw [setField_swap_set o "channelsCount" "channels" (.num c1) (.chans l1)
        (.num c2) (by decide), setField_setField_self]

/-! ## Store-level lemmas -/

theorem rGetTtl_rSetEx_self (st : Store) (k : String) (v : Obj) (t : Nat) :
    rGetTtl (rSetEx st k v t) k = some (some t) := by
  induction st with
  | nil => simp [rSetEx, rGetTtl]
  | cons e rest ih =>
    by_cases h : e.key = k
    · simp [rSetEx, h, rGetTtl]
    · simp [rSetEx, h, rGetTtl, ih]

theorem rGetTtl_rSet_self (st : Store) (k : String) (v : Obj) :
    rGetTtl (rSet st k v) k = some none := by
  induction st with
  | nil => simp [rSet, rGetTtl]
  | cons e rest ih =>
    by_cases h : e.key = k
    · simp [rSet, h, rGetTtl]
    · simp [rSet, h, rGetTtl, ih]

theorem rGetTtl_rExpire_self (st : Store) (k : String) (t : Nat) :
    rGetTtl (rExpire st k t) k = (rGetTtl st k).map (fun _ => some t) := by
  induction st with
  | nil => simp [rExpire, rGetTtl]
  | cons e rest ih =>
    by_cases h : e.key = k
    · simp [rExpire, h, rGetTtl]
    · simp only [rExpire] at ih
      simp [rExpire, h, rGetTtl, ih]

theorem exists_rGet_of_mem_keys (st : Store) (k : String)
    (h : k ∈ st.map Entry.key) : ∃ o, rGet st k = some o := by
  induction st with
  | nil => simp at h
  | cons e rest ih =>
    by_cases he : e.key = k
    · exact ⟨e.val, by simp [rGet, he]⟩
    · have : k ∈ rest.map Entry.key := by
        simp only [List.map_cons, List.mem_cons] at h
        exact h.resolve_left (fun hh => he hh.symm)
      obtain ⟨o, ho⟩ := ih this
      exact ⟨o, by simp [rGet, he, ho]⟩

theorem rGet_entry_val (st : Store) (e : Entry) (hwf : rWF st) (he : e ∈ st) :
    rGet st e.key = some e.val := by
  induction st with
  | nil => simp at he
  | cons a rest ih =>
    rw [rWF, List.map_cons, List.nodup_cons] at hwf
    rcases List.mem_cons.mp he with h | h
    · subst h
      simp [rGet]
    · have hne : a.key ≠ e.key := by
        intro hh
        exact hwf.1 (hh ▸ List.mem_map_of_mem Entry.key h)
      simp [rGet, hne, ih hwf.2 h]

theorem rSet_eq_map (st : Store) (k : String) (v : Obj) (hwf : rWF st)
    (hmem : k ∈ st.map Entry.key) :
    rSet st k v = st.map (fun e => if e.key = k then ⟨e.key, v, none⟩ else e) := by
  induction st with
  | nil => simp at hmem
  | cons a rest ih =>
    rw [rWF, List.map_cons, List.nodup_cons] at hwf
    by_cases ha : a.key = k
    · have hrest : rest.map (fun e => if e.key = k then (⟨e.key, v, none⟩ : Entry) else e)
          = rest := by
        have h1 : rest.map (fun e => if e.key = k then (⟨e.key, v, none⟩ : Entry) else e)
            = rest.map id := by
          apply List.map_congr_left
          intro e hemem
          have hne : e.key ≠ k := by
            intro hh
            exact hwf.1 (ha ▸ hh ▸ List.mem_map_of_mem Entry.key hemem)
          simp [hne]
        simpa using h1
      simp [rSet, ha, hrest]
    · have hmem2 : k ∈ rest.map Entry.key := by
        simp only [List.map_cons, List.mem_cons] at hmem
        exact hmem.resolve_left (fun hh => ha hh.symm)
      simp [rSet, ha, ih hwf.2 hmem2]

theorem map_key_of_preserve (f : Entry → Entry) (hf : ∀ e, (f e).key = e.key)
    (st : Store) : (st.map f).map Entry.key = st.map Entry.key := by
  rw [List.map_map]
  exact List.map_congr_left (fun e _ => hf e)

theorem rWF_map (f : Entry → Entry) (hf : ∀ e, (f e).key = e.key) (st : Store)
    (hwf : rWF st) : rWF (st.map f) := by
  rw [rWF, map_key_of_preserve f hf]
  exact hwf

theorem replOne_key (k : String) (U : Obj → Obj) (e : Entry) :
    (replOne k U e).key = e.key := by
  unfold replOne
  split <;> simp_all

theorem replIn_key (ks : List String) (U : Obj → Obj) (e : Entry) :
    (replIn ks U e).key = e.key := by
  unfold replIn
  split <;> simp_all

theorem fanoutEntry_key (userId : String) (cnt : Nat) (chs : List ChanSummary)
    (e : Entry) : (fanoutEntry userId cnt chs e).key = e.key := by
  unfold fanoutEntry
  split <;> simp_all

theorem map_replOne_replIn (st : Store) (k : String) (ks : List String)
    (U : Obj → Obj) (hk : k ∉ ks) :
    (st.map (replOne k U)).map (replIn ks U) = st.map (replIn (k :: ks) U) := by
  rw [List.map_map]
  apply List.map_congr_left
  intro e _
  by_cases h : e.key = k
  · simp [Function.comp, replOne, replIn, h, hk]
  · by_cases h2 : e.key ∈ ks <;> simp [Function.comp, replOne, replIn, h, h2]

/-! ## Closed form of the fan-out -/

theorem matches_of_mem_keysMatching (userId : String) (st : Store) (k : String)
    (h : k ∈ keysMatching userId st) : matchesOwner userId k = true := by
  rw [keysMatching] at h
  obtain ⟨e, he, hk⟩ := List.mem_map.mp h
  have := List.of_mem_filter he
  exact hk ▸ this

theorem mem_keysMatching_of_matches (userId : String) (st : Store) (e : Entry)
    (he : e ∈ st) (hm : matchesOwner userId e.key = true) :
    e.key ∈ keysMatching userId st := by
  rw [keysMatching]
  exact List.mem_map_of_mem Entry.key (List.mem_filter.mpr ⟨he, hm⟩)

theorem mem_keys_of_mem_keysMatching (userId : String) (st : Store) (k : String)
    (h : k ∈ keysMatching userId st) : k ∈ st.map Entry.key := by
  rw [keysMatching] at h
  obtain ⟨e, he, hk⟩ := List.mem_map.mp h
  exact hk ▸ List.mem_map_of_mem Entry.key (List.mem_of_mem_filter he)

theorem nodup_keysMatching (userId : String) (st : Store) (hwf : rWF st) :
    (keysMatching userId st).Nodup := by
  rw [keysMatching]
  exact hwf.sublist ((List.filter_sublist st).map Entry.key)

theorem updateLoop_noFail_closed (cnt : Nat) (chs : List ChanSummary) :
    ∀ (ks : List String) (st : Store), rWF st → ks.Nodup →
    (∀ k ∈ ks, k ∈ st.map Entry.key) →
    updateLoop noFail cnt chs ks st
      = (st.map (replIn ks (updateSessionObj cnt chs)), false) := by
  intro ks
  induction ks with
  | nil =>
    intro st _ _ _
    have h1 : st.map (replIn [] (updateSessionObj cnt chs)) = st.map id := by
      apply List.map_congr_left
      intro e _
      simp [replIn]
    simp [updateLoop, h1]
  | cons k rest ih =>
    intro st hwf hnd hmem
    have hkmem : k ∈ st.map Entry.key := hmem k (by simp)
    obtain ⟨o, ho⟩ := exists_rGet_of_mem_keys st k hkmem
    rw [List.nodup_cons] at hnd
    have hset : rSet st k (updateSessionObj cnt chs o)
        = st.map (replOne k (updateSessionObj cnt chs)) := by
      rw [rSet_eq_map st k _ hwf hkmem]
      apply List.map_congr_left
      intro e he
      by_cases h : e.key = k
      · have : e.val = o := by
          have h1 := rGet_entry_val st e hwf he
          rw [h, ho] at h1
          exact (Option.some.inj h1).symm
        simp [replOne, h, this]
      · simp [replOne, h]
    have hwf2 : rWF (st.map (replOne k (updateSessionObj cnt chs))) :=
      rWF_map _ (replOne_key k _) st hwf
    have hmem2 : ∀ x ∈ rest, x ∈ (st.map (replOne k (updateSessionObj cnt chs))).map Entry.key := by
      intro x hx
      rw [map_key_of_preserve _ (replOne_key k _) st]
      exact hmem x (List.mem_cons_of_mem k hx)
    simp only [updateLoop, ho, noFail, if_neg, Bool.false_eq_true, ite_false, hset]
    rw [ih _ hwf2 hnd.2 hmem2, map_replOne_replIn st k rest _ hnd.1]

theorem updateRedisSession_closed (userId : String) (u : UserDoc) (st : Store)
    (hwf : rWF st) :
    updateRedisSession noFail userId u st
      = st.map (fanoutEntry userId (channelCount u) (chanSummaries u)) := by
  unfold updateRedisSession
  by_cases hks : (keysMatching userId st).isEmpty
  · have hempty : keysMatching userId st = [] := List.isEmpty_iff.mp hks
    have h1 : st.map (fanoutEntry userId (channelCount u) (chanSummaries u))
        = st.map id := by
      apply List.map_congr_left
      intro e he
      have hm : matchesOwner userId e.key = false := by
        by_contra hcon
        have := mem_keysMatching_of_matches userId st e he
          (Bool.not_eq_false _ ▸ hcon)
        rw [hempty] at this
        simp at this
      simp [fanoutEntry, hm]
    simp [hks, h1]
  · rw [if_neg hks,
        updateLoop_noFail_closed _ _ _ st hwf (nodup_keysMatching userId st hwf)
          (fun k hk => mem_keys_of_mem_keysMatching userId st k hk)]
    apply List.map_congr_left
    intro e he
    by_cases hm : matchesOwner userId e.key = true
    · have : e.key ∈ keysMatching userId st := mem_keysMatching_of_matches userId st e he hm
      simp [replIn, fanoutEntry, this, hm]
    · have : e.key ∉ keysMatching userId st := by
        intro hcon
        exact hm (matches_of_mem_keysMatching userId st e.key hcon)
      simp [replIn, fanoutEntry, this, hm]

theorem rGet_map_fanout (userId : String) (cnt : Nat) (chs : List ChanSummary)
    (st : Store) (k : String) :
    rGet (st.map (fanoutEntry userId cnt chs)) k
      = if matchesOwner userId k then (rGet st k).map (updateSessionObj cnt chs)
        else rGet st k := by
  induction st with
  | nil => simp [rGet]
  | cons e rest ih =>
    by_cases h : e.key = k
    · by_cases hm : matchesOwner userId k
      · simp [fanoutEntry, rGet, h, hm]
      · simp [fanoutEntry, rGet, h, hm]
    · have hkey : (fanoutEntry userId cnt chs e).key = e.key := fanoutEntry_key _ _ _ _
      simp only [List.map_cons, rGet, hkey, h, ite_false, if_neg]
      exact ih

theorem rGetTtl_map_fanout (userId : String) (cnt : Nat) (chs : List ChanSummary)
    (st : Store) (k : String) :
    rGetTtl (st.map (fanoutEntry userId cnt chs)) k
      = if matchesOwner userId k then (rGetTtl st k).map (fun _ => none)
        else rGetTtl st k := by
  induction st with
  | nil => simp [rGetTtl]
  | cons e rest ih =>
    by_cases h : e.key = k
    · by_cases hm : matchesOwner userId k
      · simp [fanoutEntry, rGetTtl, h, hm]
      · simp [fanoutEntry, rGetTtl, h, hm]
    · have hkey : (fanoutEntry userId cnt chs e).key = e.key := fanoutEntry_key _ _ _ _
      simp only [List.map_cons, rGetTtl, hkey, h, ite_false, if_neg]
      exact ih

theorem updateRedisSession_absorb (userId : String) (u1 u2 : UserDoc)
    (st : Store) (hwf : rWF st) :
    updateRedisSession noFail userId u2 (updateRedisSession noFail userId u1 st)
      = updateRedisSession noFail userId u2 st := by
  have hwf1 : rWF (updateRedisSession noFail userId u1 st) := by
    rw [updateRedisSession_closed userId u1 st hwf]
    exact rWF_map _ (fanoutEntry_key userId _ _) st hwf
  rw [updateRedisSession_closed userId u2 _ hwf1,
      updateRedisSession_closed userId u1 st hwf,
      updateRedisSession_closed userId u2 st hwf, List.map_map]
  apply List.map_congr_left
  intro e _
  by_cases hm : matchesOwner userId e.key
  · simp [Function.comp, fanoutEntry, hm, updateSessionObj_absorb]
  · simp [Function.comp, fanoutEntry, hm]

theorem rWF_updateRedisSession (userId : String) (u : UserDoc) (st : Store)
    (hwf : rWF st) : rWF (updateRedisSession noFail userId u st) := by
  rw [updateRedisSession_closed userId u st hwf]
  exact rWF_map _ (fanoutEntry_key userId _ _) st hwf

/-! ## The aborted fan-out: closed form when one write throws -/

theorem updateLoop_fail_closed (fails : String → Bool) (cnt : Nat)
    (chs : List ChanSummary) :
    ∀ (ks1 : List String) (k : String) (ks2 : List String) (st : Store),
    rWF st → (ks1 ++ k :: ks2).Nodup →
    (∀ x ∈ ks1 ++ k :: ks2, x ∈ st.map Entry.key) →
    (∀ x ∈ ks1, fails x = false) → fails k = true →
    updateLoop fails cnt chs (ks1 ++ k :: ks2) st
      = (st.map (replIn ks1 (updateSessionObj cnt chs)), true) := by
  intro ks1
  induction ks1 with
  | nil =>
    intro k ks2 st hwf _ hmem _ hk
    obtain ⟨o, ho⟩ := exists_rGet_of_mem_keys st k (hmem k (by simp))
    have h1 : st.map (replIn [] (updateSessionObj cnt chs)) = st.map id := by
      apply List.map_congr_left
      intro e _
      simp [replIn]
    simp [updateLoop, ho, hk, h1]
  | cons a ks1 ih =>
    intro k ks2 st hwf hnd hmem hok hk
    have hamem : a ∈ st.map Entry.key := hmem a (by simp)
    obtain ⟨o, ho⟩ := exists_rGet_of_mem_keys st a hamem
    rw [List.cons_append, List.nodup_cons] at hnd
    have hset : rSet st a (updateSessionObj cnt chs o)
        = st.map (replOne a (updateSessionObj cnt chs)) := by
      rw [rSet_eq_map st a _ hwf hamem]
      apply List.map_congr_left
      intro e he
      by_cases h : e.key = a
      · have hv : e.val = o := by
          have h1 := rGet_entry_val st e hwf he
          rw [h, ho] at h1
          exact (Option.some.inj h1).symm
        simp [replOne, h, hv]
      · simp [replOne, h]
    have hwf2 : rWF (st.map (replOne a (updateSessionObj cnt chs))) :=
      rWF_map _ (replOne_key a _) st hwf
    have hmem2 : ∀ x ∈ ks1 ++ k :: ks2,
        x ∈ (st.map (replOne a (updateSessionObj cnt chs))).map Entry.key := by
      intro x hx
      rw [map_key_of_preserve _ (replOne_key a _) st]
      exact hmem x (List.mem_cons_of_mem a hx)
    have hok2 : ∀ x ∈ ks1, fails x = false :=
      fun x hx => hok x (List.mem_cons_of_mem a hx)
    have hnotin : a ∉ ks1 := fun hcon => hnd.1 (List.mem_append_left _ hcon)
    simp only [List.cons_append, updateLoop, ho, hok a (by simp), Bool.false_eq_true,
      ite_false, if_neg, hset]
    rw [List.append_eq, ih k ks2 _ hwf2 hnd.2 hmem2 hok2 hk,
        map_replOne_replIn st a ks1 _ hnotin]

theorem rGet_map_replIn (ks : List String) (U : Obj → Obj) (st : Store)
    (k : String) :
    rGet (st.map (replIn ks U)) k
      = if k ∈ ks then (rGet st k).map U else rGet st k := by
  induction st with
  | nil => simp [rGet]
  | cons e rest ih =>
    by_cases h : e.key = k
    · by_cases hm : k ∈ ks
      · simp [replIn, rGet, h, hm]
      · simp [replIn, rGet, h, hm]
    · have hkey : (replIn ks U e).key = e.key := replIn_key _ _ _
      simp only [List.map_cons, rGet, hkey, h, ite_false, if_neg]
      exact ih

/-! ## Closed form of the syncTelegramChannelsData fold -/

theorem syncDataStep_fst (chs : List Channel) (acc : List Channel × Bool)
    (tc : TChan) : (syncDataStep chs acc tc).1 = acc.1 ++ [chanOut chs tc] := by
  unfold syncDataStep chanOut
  cases h : existingChannel chs tc.id with
  | none => simp
  | some oldData =>
    by_cases hc : channelDataChanged oldData (buildChan tc) <;> simp [hc]

theorem syncDataStep_snd (chs : List Channel) (acc : List Channel × Bool)
    (tc : TChan) : (syncDataStep chs acc tc).2 = (acc.2 || chanChangedFlag chs tc) := by
  unfold syncDataStep chanChangedFlag
  cases h : existingChannel chs tc.id with
  | none => simp
  | some oldData =>
    by_cases hc : channelDataChanged oldData (buildChan tc) <;> simp [hc]

theorem foldl_syncDataStep_fst (chs : List Channel) :
    ∀ (ts : List TChan) (acc : List Channel × Bool),
    (ts.foldl (syncDataStep chs) acc).1 = acc.1 ++ ts.map (chanOut chs) := by
  intro ts
  induction ts with
  | nil => intro acc; simp
  | cons tc ts ih =>
    intro acc
    rw [List.foldl_cons, ih (syncDataStep chs acc tc), List.map_cons]
    rw [syncDataStep_fst]
    simp [List.append_assoc]

theorem foldl_syncDataStep_snd (chs : List Channel) :
    ∀ (ts : List TChan) (acc : List Channel × Bool),
    (ts.foldl (syncDataStep chs) acc).2 = (acc.2 || ts.any (chanChangedFlag chs)) := by
  intro ts
  induction ts with
  | nil => intro acc; simp
  | cons tc ts ih =>
    intro acc
    rw [List.foldl_cons, ih (syncDataStep chs acc tc), List.any_cons]
    rw [syncDataStep_snd, Bool.or_assoc]

theorem channelDataChanged_self (c : Channel) : channelDataChanged c c = false := by
  simp [channelDataChanged]

theorem isTelWith_of_existingChannel (chs : List Channel) (id : String)
    (c : Channel) (h : existingChannel chs id = some c) :
    c.channelType = "Telegram" ∧ c.channelUserId = id := by
  rw [existingChannel] at h
  have := List.find?_some h
  rw [isTelWith, Bool.and_eq_true] at this
  exact ⟨by simpa using this.1, by simpa using this.2⟩

theorem chanOut_channelType (chs : List Channel) (tc : TChan) :
    (chanOut chs tc).channelType = "Telegram" := by
  unfold chanOut
  cases h : existingChannel chs tc.id with
  | none => rfl
  | some oldData =>
    dsimp only
    by_cases hc : channelDataChanged oldData (buildChan tc) = true
    · rw [if_pos hc]
      rfl
    · rw [if_neg hc]
      exact (isTelWith_of_existingChannel chs tc.id oldData h).1

theorem chanOut_channelUserId (chs : List Channel) (tc : TChan) :
    (chanOut chs tc).channelUserId = tc.id := by
  unfold chanOut
  cases h : existingChannel chs tc.id with
  | none => rfl
  | some oldData =>
    dsimp only
    by_cases hc : channelDataChanged oldData (buildChan tc) = true
    · rw [if_pos hc]
      rfl
    · rw [if_neg hc]
      exact (isTelWith_of_existingChannel chs tc.id oldData h).2

theorem chanOut_unchanged (chs : List Channel) (tc : TChan) :
    channelDataChanged (chanOut chs tc) (buildChan tc) = false := by
  unfold chanOut
  cases h : existingChannel chs tc.id with
  | none => exact channelDataChanged_self _
  | some oldData =>
    dsimp only
    by_cases hc : channelDataChanged oldData (buildChan tc) = true
    · rw [if_pos hc]
      exact channelDataChanged_self _
    · rw [if_neg hc]
      exact Bool.eq_false_iff.mpr (fun hh => hc hh)

theorem all_false_of_any_false {α : Type} (p : α → Bool) (l : List α)
    (h : l.any p = false) : ∀ x ∈ l, p x = false := by
  intro x hx
  rcases hp : p x with _ | _
  · rfl
  · rw [List.any_eq_false] at h
    exact absurd hp (h x hx)

theorem find_append_of_found {α : Type} (p : α → Bool) (l1 l2 : List α) (x : α)
    (h : l1.find? p = some x) : (l1 ++ l2).find? p = some x := by
  induction l1 with
  | nil => simp [List.find?] at h
  | cons a l1 ih =>
    rcases hp : p a with _ | _
    · rw [List.find?_cons_of_neg _ (by simp [hp])] at h
      rw [List.cons_append, List.find?_cons_of_neg _ (by simp [hp])]
      exact ih h
    · rw [List.find?_cons_of_pos _ hp] at h
      rw [List.cons_append, List.find?_cons_of_pos _ hp]
      exact h

theorem isTelWith_chanOut (chs : List Channel) (tc : TChan) (id : String) :
    isTelWith id (chanOut chs tc) = (tc.id == id) := by
  rw [isTelWith, chanOut_channelType, chanOut_channelUserId]
  simp

theorem find_map_chanOut (chs : List Channel) :
    ∀ (ts : List TChan) (tc : TChan), tc ∈ ts → (ts.map TChan.id).Nodup →
    (ts.map (chanOut chs)).find? (isTelWith tc.id) = some (chanOut chs tc) := by
  intro ts
  induction ts with
  | nil => intro tc h; simp at h
  | cons a ts ih =>
    intro tc htc hnd
    rw [List.map_cons, List.nodup_cons] at hnd
    rcases List.mem_cons.mp htc with h | h
    · subst h
      rw [List.map_cons, List.find?_cons_of_pos _ (by simp [isTelWith_chanOut])]
    · have hne : (a.id == tc.id) = false := by
        have : a.id ≠ tc.id := by
          intro hh
          exact hnd.1 (hh ▸ List.mem_map_of_mem TChan.id h)
        simpa using this
      rw [List.map_cons, List.find?_cons_of_neg _ (by simp [isTelWith_chanOut, hne])]
      exact ih tc h hnd.2

theorem existingChannel_run2 (chs nonTel : List Channel) (ts : List TChan)
    (tc : TChan) (htc : tc ∈ ts) (hnd : (ts.map TChan.id).Nodup) :
    existingChannel (nonTel ++ ts.map (chanOut chs)) tc.id
      = some (chanOut chs tc) := by
  rw [existingChannel, List.reverse_append]
  apply find_append_of_found
  rw [← List.map_reverse]
  exact find_map_chanOut chs ts.reverse tc (by simpa using htc)
    (by rw [List.map_reverse]; exact List.nodup_reverse.mpr hnd)

theorem filter_nonTel_run2 (chs : List Channel) (ts : List TChan) :
    ((chs.filter (fun c => !(c.channelType == "Telegram"))) ++ ts.map (chanOut chs)).filter
        (fun c => !(c.channelType == "Telegram"))
      = chs.filter (fun c => !(c.channelType == "Telegram")) := by
  rw [List.filter_append]
  have h1 : (chs.filter (fun c => !(c.channelType == "Telegram"))).filter
      (fun c => !(c.channelType == "Telegram"))
      = chs.filter (fun c => !(c.channelType == "Telegram")) := by
    apply List.filter_eq_self.mpr
    intro c hc
    exact (List.mem_filter.mp hc).2
  have h2 : (ts.map (chanOut chs)).filter (fun c => !(c.channelType == "Telegram")) = [] := by
    apply List.filter_eq_nil_iff.mpr
    intro c hc
    obtain ⟨tc, _, hcc⟩ := List.mem_map.mp hc
    simp [← hcc, chanOut_channelType]
  rw [h1, h2, List.append_nil]

/-! ## findIndex / splice helpers for the mutation handlers -/

theorem findIdx_append_helper {α : Type} (p : α → Bool) :
    ∀ (L M : List α) (b : α) (i : Nat), (∀ c ∈ L, p c = false) → p b = true →
    List.findIdx? p (L ++ b :: M) i = some (i + L.length) := by
  intro L
  induction L with
  | nil =>
    intro M b i _ hb
    simp [List.findIdx?_cons, hb]
  | cons a L ih =>
    intro M b i hL hb
    have ha : p a = false := hL a (by simp)
    rw [List.cons_append, List.findIdx?_cons, if_neg (by simp [ha]),
        ih M b (i + 1) (fun c hc => hL c (List.mem_cons_of_mem a hc)) hb,
        List.length_cons]
    congr 1
    omega

theorem eraseIdx_append_helper {α : Type} :
    ∀ (L M : List α) (b : α), (L ++ b :: M).eraseIdx L.length = L ++ M := by
  intro L
  induction L with
  | nil => intro M b; rfl
  | cons a L ih =>
    intro M b
    rw [List.cons_append, List.length_cons]
    show a :: (L ++ b :: M).eraseIdx L.length = a :: (L ++ M)
    rw [ih M b]

/-! ## Claim theorems -/

/-- C2: for every live session record of the owner at the time the fan-out
runs, `_updateRedisSession` rewrites only the summary fields `channelsCount`
and `channels` — a field-level overwrite whose written values are the same
function of the user document for every session — and every other field of
the session payload is left unchanged. -/
theorem C2_fanout_frame_effect (userId : String) (u : UserDoc) (st : Store)
    (hwf : rWF st) (k : String) (o : Obj) (hk : rGet st k = some o)
    (hm : matchesOwner userId k = true) :
    rGet (updateRedisSession noFail userId u st) k
        = some (updateSessionObj (channelCount u) (chanSummaries u) o)
  ∧ (∀ f, f ≠ "channelsCount" → f ≠ "channels" →
      getField (updateSessionObj (channelCount u) (chanSummaries u) o) f
        = getField o f)
  ∧ getField (updateSessionObj (channelCount u) (chanSummaries u) o)
        "channelsCount" = some (.num (channelCount u))
  ∧ getField (updateSessionObj (channelCount u) (chanSummaries u) o)
        "channels" = some (.chans (chanSummaries u)) := by
  refine ⟨?_, ?_, ?_, ?_⟩
  · rw [updateRedisSession_closed userId u st hwf, rGet_map_fanout, if_pos hm, hk]
    rfl
  · intro f hf1 hf2
    rw [updateSessionObj, getField_setField_ne _ _ _ _ (Ne.symm hf2),
        getField_setField_ne _ _ _ _ (Ne.symm hf1)]
  · rw [updateSessionObj, getField_setField_ne _ _ _ _ (by decide),
        getField_setField_self]
  · rw [updateSessionObj, getField_setField_self]

/-- C2 witness: a concrete owner with one live session record. -/
theorem C2_fanout_frame_effect_witness :
    rGet (updateRedisSession noFail "u"
        ⟨[⟨"Telegram", "id1", "tok", "BotA", "", ⟨0, 0, 0⟩, 0, 0⟩], 1⟩
        [⟨"u:t1", [("issuedAt", JVal.num 5)], some 604800⟩]) "u:t1"
      = some (updateSessionObj
          (channelCount ⟨[⟨"Telegram", "id1", "tok", "BotA", "", ⟨0, 0, 0⟩, 0, 0⟩], 1⟩)
          (chanSummaries ⟨[⟨"Telegram", "id1", "tok", "BotA", "", ⟨0, 0, 0⟩, 0, 0⟩], 1⟩)
          [("issuedAt", JVal.num 5)]) :=
  (C2_fanout_frame_effect "u"
    ⟨[⟨"Telegram", "id1", "tok", "BotA", "", ⟨0, 0, 0⟩, 0, 0⟩], 1⟩
    [⟨"u:t1", [("issuedAt", JVal.num 5)], some 604800⟩]
    (by decide) "u:t1" [("issuedAt", JVal.num 5)] (by decide) (by decide)).1

/-- C3 counterexample: the claim says no operation — including the fan-out
rewrite — removes a session record's expiry. A record carrying the 7-day
TTL (as set, for example, by the rolling refresh) loses it entirely after
one `_updateRedisSession` rewrite, because the rewrite uses plain `SET`
without `EX`/`KEEPTTL`. -/
theorem C3_fanout_clears_ttl_counterexample :
    rGetTtl [⟨"u:t1", [("issuedAt", JVal.num 5)], some SESSION_TTL_SECONDS⟩]
        "u:t1" = some (some SESSION_TTL_SECONDS)
  ∧ rGetTtl (updateRedisSession noFail "u" ⟨[], 1⟩
        [⟨"u:t1", [("issuedAt", JVal.num 5)], some SESSION_TTL_SECONDS⟩])
        "u:t1" = some none := by
  constructor
  · rfl
  · decide

/-- C3 (amended): the TTL invariant fails beyond the fan-out alone.
`createSession` requests `{ EX: 604800 }` but the config/redis.js `set`
wrapper discards the option, so a freshly created record carries NO TTL;
only the rolling refresh (`EXPIRE` to the full window) gives a present
record a finite TTL; and the synchronization fan-out rewrites each matching
session payload with a plain `SET`, which clears whatever expiry the record
had — after a fan-out the record persists with no TTL. -/
theorem C3_ttl_lifecycle_amended (userId : String) (u : UserDoc) (st : Store)
    (k : String) (t0 : Option Nat) (hwf : rWF st)
    (hm : matchesOwner userId k = true) (hk : rGetTtl st k = some t0) :
    (∀ (token : String) (d : SessionUserData) (st0 : Store),
      rGetTtl (createSession token d st0) (sessionKey token) = some none)
  ∧ (∀ (st1 : Store) (k1 : String),
      rGetTtl (rExpire st1 k1 ROLLING_TTL_SECONDS) k1
        = (rGetTtl st1 k1).map (fun _ => some ROLLING_TTL_SECONDS))
  ∧ rGetTtl (updateRedisSession noFail userId u st) k = some none := by
  refine ⟨fun token d st0 => rGetTtl_rSet_self st0 (sessionKey token) _,
          fun st1 k1 => rGetTtl_rExpire_self st1 k1 _, ?_⟩
  rw [updateRedisSession_closed userId u st hwf, rGetTtl_map_fanout, if_pos hm, hk]
  rfl

/-- C3 amended witness: a concrete session record with the 7-day TTL. -/
theorem C3_ttl_lifecycle_amended_witness :
    rGetTtl (updateRedisSession noFail "u" ⟨[], 1⟩
        [⟨"u:t1", [("issuedAt", JVal.num 5)], some SESSION_TTL_SECONDS⟩])
        "u:t1" = some none :=
  (C3_ttl_lifecycle_amended "u" ⟨[], 1⟩
    [⟨"u:t1", [("issuedAt", JVal.num 5)], some SESSION_TTL_SECONDS⟩]
    "u:t1" (some SESSION_TTL_SECONDS) (by decide) (by decide) (by decide)).2.2

/-- C4: the claim asserts the fingerprint derivation is deterministic for a
fixed attribute tuple and owner. `generateDeviceId` mixes a fresh
`crypto.randomBytes(8)` nonce into the hashed tuple on every call, so two
calls with identical attributes and owner hash different preimages and yield
different fingerprints — the code contradicts the documented STABLE mode
(spec §4.4/§9 flag random salting as the design bug). -/
theorem C4_device_id_nonce_dependence (d : DeviceInfo)
    (userSpecificInfo n1 n2 : String) (h : n1 ≠ n2) :
    deviceIdHashedData d userSpecificInfo n1
      ≠ deviceIdHashedData d userSpecificInfo n2 := by
  intro heq
  apply h
  have h2 := congrArg String.data heq
  rw [deviceIdHashedData, deviceIdHashedData] at h2
  simp only [String.data_append, List.append_assoc] at h2
  have h3 := List.append_cancel_left h2
  have h4 := List.append_cancel_left h3
  have h5 := List.append_cancel_left h4
  have h6 := List.append_cancel_left h5
  have h7 := List.append_cancel_left h6
  have h8 := List.append_cancel_left h7
  have h9 := List.append_cancel_left h8
  have h10 := List.append_cancel_left h9
  have h11 := List.append_cancel_left h10
  have h12 := List.append_cancel_left h11
  have h13 := List.append_cancel_left h12
  have h14 := List.append_cancel_left h13
  have h15 := List.append_cancel_left h14
  have h16 := List.append_cancel_left h15
  have h17 := List.append_cancel_left h16
  have h18 := List.append_cancel_left h17
  have h19 := List.append_cancel_left h18
  have h20 := List.append_cancel_left h19
  cases n1
  cases n2
  exact congrArg String.mk h20

/-- C4 witness: the same device attributes and owner with the nonces of two
successive calls. -/
theorem C4_device_id_nonce_dependence_witness :
    deviceIdHashedData
        ⟨"desktop", "Chrome", "Mozilla/5.0", "MacIntel", "2560x1440", "UTC",
         "en", "", "", ""⟩ "owner-1" "00a1b2c3d4e5f607"
      ≠ deviceIdHashedData
        ⟨"desktop", "Chrome", "Mozilla/5.0", "MacIntel", "2560x1440", "UTC",
         "en", "", "", ""⟩ "owner-1" "ffa1b2c3d4e5f607" :=
  C4_device_id_nonce_dependence
    ⟨"desktop", "Chrome", "Mozilla/5.0", "MacIntel", "2560x1440", "UTC",
     "en", "", "", ""⟩ "owner-1" "00a1b2c3d4e5f607" "ffa1b2c3d4e5f607" (by decide)

/-- C7 counterexample: the claim presumes every live session record carries
an `expiresAt` that refresh strictly increases and never decreases. A
record freshly stored by `createSession` has NO expiry at all (the
`{ EX: 604800 }` option is discarded by the config/redis.js `set` wrapper),
so the first refresh does not increase an existing expiry — it imposes the
record's first finite bound, shortening a previously unbounded lifetime. -/
theorem C7_created_record_has_no_expiry_counterexample :
    rGetTtl (createSession "tok" ⟨"u1", "e", "fp", 0, 0, "now"⟩ [])
        (sessionKey "tok") = some none
  ∧ rGetTtl (rExpire (createSession "tok" ⟨"u1", "e", "fp", 0, 0, "now"⟩ [])
        (sessionKey "tok") ROLLING_TTL_SECONDS) (sessionKey "tok")
      = some (some ROLLING_TTL_SECONDS) := by
  constructor
  · rfl
  · rfl

/-- C7 (amended): each refresh performed by `isAuthenticated` sets the
absolute expiry to `t + 604800`; relative to any earlier refresh at
`t0 ≤ t1` this never decreases the expiry and strictly increases it once
the clock has advanced, and on the store `EXPIRE` resets a present record's
TTL to the full rolling window. A freshly created record, however, carries
no expiry until its first refresh, which imposes — rather than extends —
the bound. -/
theorem C7_refresh_monotone_amended (t0 t1 : Nat) (h : t0 ≤ t1) :
    refreshExpiresAt t0 ≤ refreshExpiresAt t1
  ∧ (t0 < t1 → refreshExpiresAt t0 < refreshExpiresAt t1)
  ∧ (∀ (st : Store) (k : String),
      rGetTtl (rExpire st k ROLLING_TTL_SECONDS) k
        = (rGetTtl st k).map (fun _ => some ROLLING_TTL_SECONDS))
  ∧ (∀ (token : String) (d : SessionUserData) (st0 : Store),
      rGetTtl (createSession token d st0) (sessionKey token) = some none) :=
  ⟨Nat.add_le_add_right h _,
   fun hlt => Nat.add_lt_add_right hlt _,
   fun st k => rGetTtl_rExpire_self st k _,
   fun token _ st0 => rGetTtl_rSet_self st0 (sessionKey token) _⟩

/-- C7 amended witness: a refresh one second after the previous refresh. -/
theorem C7_refresh_monotone_amended_witness :
    refreshExpiresAt 0 ≤ refreshExpiresAt 1
  ∧ (0 < 1 → refreshExpiresAt 0 < refreshExpiresAt 1)
  ∧ (∀ (st : Store) (k : String),
      rGetTtl (rExpire st k ROLLING_TTL_SECONDS) k
        = (rGetTtl st k).map (fun _ => some ROLLING_TTL_SECONDS))
  ∧ (∀ (token : String) (d : SessionUserData) (st0 : Store),
      rGetTtl (createSession token d st0) (sessionKey token) = some none) :=
  C7_refresh_monotone_amended 0 1 (by decide)

/-- C8 counterexample: the claim says every session-creation call persists
the record with the 7-day default TTL. Neither creation path does:
`createSession`'s record is stored with no TTL at all (the `{ EX: 604800 }`
option is discarded by the config/redis.js `set` wrapper), and
`storeUserData` persists its record with a 1-day TTL (86400 s ≠ 604800 s). -/
theorem C8_no_seven_day_ttl_counterexample :
    rGetTtl (createSession "tok" ⟨"u1", "e", "fp", 0, 0, "now"⟩ [])
        (sessionKey "tok") = some none
  ∧ rGetTtl (storeUserData "tok" [] []) (sessionKey "tok")
        = some (some STORE_USER_TTL_SECONDS)
  ∧ STORE_USER_TTL_SECONDS ≠ SESSION_TTL_SECONDS := by
  refine ⟨rfl, rfl, by decide⟩

/-- C8 (amended): session creation allocates a fresh high-entropy token,
but neither creation path persists the record with the 7-day default TTL:
`createSession` requests `{ EX: 604800 }`, which the config/redis.js `set`
wrapper discards, leaving the record with no TTL, while the auth-service
`storeUserData` persists its session record with a 1-day TTL. -/
theorem C8_session_creation_ttl_amended :
    (∀ (token : String) (d : SessionUserData) (st : Store),
      rGetTtl (createSession token d st) (sessionKey token) = some none)
  ∧ (∀ (token : String) (o : Obj) (st : Store),
      rGetTtl (storeUserData token o st) (sessionKey token)
        = some (some STORE_USER_TTL_SECONDS)) :=
  ⟨fun token _ st => rGetTtl_rSet_self st (sessionKey token) _,
   fun token _ st => rGetTtl_rSetEx_self st (sessionKey token) _ _⟩

/-- C9 counterexample: for a token whose stored payload is present but
unparsable, the claim says lookup returns NotFound and the resolver renders
the unauthorized class; instead `getSession` rethrows the parse error and
`validateSession` answers the server-error class (500). -/
theorem C9_corrupt_payload_counterexample :
    getSession true [(sessionKey "tkn", StoredVal.corrupt "not-json")] "tkn"
        = .error "SyntaxError: Unexpected token"
  ∧ validateSession true [(sessionKey "tkn", StoredVal.corrupt "not-json")]
        (some "tkn")
        = .serverError "Server error during session validation" := by
  constructor
  · rfl
  · rfl

/-- C9 (amended): a present-but-unparsable payload makes `getSession` throw
(the error is logged and rethrown) and the resolver renders it as the
server-error class, exactly like a backend outage; only a missing or expired
payload yields NotFound, rendered as the unauthorized class. -/
theorem C9_failure_classes_amended (st : KV) (tok s : String)
    (hc : kvGet st (sessionKey tok) = some (.corrupt s)) :
    getSession true st tok = .error "SyntaxError: Unexpected token"
  ∧ validateSession true st (some tok)
      = .serverError "Server error during session validation"
  ∧ (∀ tok2, kvGet st (sessionKey tok2) = none →
      getSession true st tok2 = .ok none
      ∧ validateSession true st (some tok2)
          = .unauthorized "Session expired or invalid")
  ∧ (∀ tok3, getSession false st tok3 = .error "StorageUnavailable"
      ∧ validateSession false st (some tok3)
          = .serverError "Server error during session validation") := by
  refine ⟨?_, ?_, ?_, ?_⟩
  · simp [getSession, hc, jsonParse]
  · simp [validateSession, hc, jsonParse]
  · intro tok2 h2
    exact ⟨by simp [getSession, h2], by simp [validateSession, h2]⟩
  · intro tok3
    exact ⟨by simp [getSession], by simp [validateSession]⟩

/-- C9 amended witness: a concrete corrupt payload. -/
theorem C9_failure_classes_amended_witness :
    getSession true [(sessionKey "tkn", StoredVal.corrupt "not-json")] "tkn"
      = .error "SyntaxError: Unexpected token" :=
  (C9_failure_classes_amended [(sessionKey "tkn", StoredVal.corrupt "not-json")]
    "tkn" "not-json" (by rfl)).1

/-- C1 counterexample: the claim says a failure while writing one session
record does not prevent updates to the owner's remaining session records.
With two live sessions and the write to the first throwing, the whole store
is left untouched: the sibling `u:t2` still holds its old payload, which
does not even contain the `channelsCount` summary field — yet the call
reports success after the authoritative write. -/
theorem C1_abort_counterexample :
    syncTelegramChannelsCount (fun k => k == "u:t1") "u"
        ⟨[⟨"b1", "tok", "BotA", ⟨0, 0, 0⟩, 0, 0⟩], some ⟨[], 0⟩,
         [⟨"u:t1", [("issuedAt", JVal.num 5)], some 604800⟩,
          ⟨"u:t2", [("issuedAt", JVal.num 6)], some 604800⟩]⟩
      = .ok (⟨[⟨"b1", "tok", "BotA", ⟨0, 0, 0⟩, 0, 0⟩], some ⟨[], 1⟩,
              [⟨"u:t1", [("issuedAt", JVal.num 5)], some 604800⟩,
               ⟨"u:t2", [("issuedAt", JVal.num 6)], some 604800⟩]⟩,
             true, ⟨true, "u", 1⟩)
  ∧ getField [("issuedAt", JVal.num 6)] "channelsCount" = none := by
  constructor
  · rfl
  · rfl

/-- C1 (amended): when a fan-out write throws at key `k`, the error is
logged and swallowed, so the synchronization call still reports success
after the authoritative write; the session keys enumerated before `k` are
updated, but the loop aborts at `k`, so `k` itself and every remaining
(sibling) session record keep their old payloads. -/
theorem C1_partial_fanout_amended (fails : String → Bool) (userId : String)
    (s : SyncState) (user : UserDoc) (ks1 ks2 : List String) (k : String)
    (hu : s.user = some user)
    (hne : user.channelsCount ≠ s.tchans.length)
    (hwf : rWF s.store)
    (hsplit : keysMatching userId s.store = ks1 ++ k :: ks2)
    (hok : ∀ x ∈ ks1, fails x = false)
    (hk : fails k = true) :
    ∃ s1, syncTelegramChannelsCount fails userId s
        = .ok (s1, true, ⟨true, userId, s.tchans.length⟩)
      ∧ rGet s1.store k = rGet s.store k
      ∧ (∀ x ∈ ks2, rGet s1.store x = rGet s.store x)
      ∧ (∀ x ∈ ks1, rGet s1.store x
          = (rGet s.store x).map (updateSessionObj
              (channelCount { user with channelsCount := s.tchans.length })
              (chanSummaries { user with channelsCount := s.tchans.length }))) := by
  have hnodup : (ks1 ++ k :: ks2).Nodup :=
    hsplit ▸ nodup_keysMatching userId s.store hwf
  have hmemk : ∀ x ∈ ks1 ++ k :: ks2, x ∈ s.store.map Entry.key :=
    fun x hx => mem_keys_of_mem_keysMatching userId s.store x (hsplit ▸ hx)
  have hnd2 := hnodup
  rw [List.nodup_append] at hnd2
  have hkn1 : k ∉ ks1 := fun hc => hnd2.2.2 hc (by simp)
  have hdisj : ∀ x ∈ ks2, x ∉ ks1 :=
    fun x hx hc => hnd2.2.2 hc (List.mem_cons_of_mem k hx)
  have hempty : (ks1 ++ k :: ks2).isEmpty = false := by
    cases ks1 <;> rfl
  have hstore : updateRedisSession fails userId
        { user with channelsCount := s.tchans.length } s.store
      = s.store.map (replIn ks1 (updateSessionObj
          (channelCount { user with channelsCount := s.tchans.length })
          (chanSummaries { user with channelsCount := s.tchans.length }))) := by
    rw [updateRedisSession, hsplit]
    simp only [hempty, Bool.false_eq_true, if_false, ite_false]
    rw [updateLoop_fail_closed fails _ _ ks1 k ks2 s.store hwf hnodup hmemk hok hk]
  refine ⟨⟨s.tchans, some { user with channelsCount := s.tchans.length },
           s.store.map (replIn ks1 (updateSessionObj
             (channelCount { user with channelsCount := s.tchans.length })
             (chanSummaries { user with channelsCount := s.tchans.length })))⟩,
          ?_, ?_, ?_, ?_⟩
  · simp only [syncTelegramChannelsCount, hu]
    rw [if_pos hne]
    simp only [hstore]
  · rw [rGet_map_replIn, if_neg hkn1]
  · intro x hx
    rw [rGet_map_replIn, if_neg (hdisj x hx)]
  · intro x hx
    rw [rGet_map_replIn, if_pos hx]

/-- C1 amended witness: two live sessions, the first write failing. -/
theorem C1_partial_fanout_amended_witness :
    ∃ s1, syncTelegramChannelsCount (fun k => k == "u:t1") "u"
        ⟨[⟨"b1", "tok", "BotA", ⟨0, 0, 0⟩, 0, 0⟩], some ⟨[], 0⟩,
         [⟨"u:t1", [("issuedAt", JVal.num 5)], some 604800⟩,
          ⟨"u:t2", [("issuedAt", JVal.num 6)], some 604800⟩]⟩
        = .ok (s1, true, ⟨true, "u", 1⟩)
      ∧ rGet s1.store "u:t1"
          = rGet [⟨"u:t1", [("issuedAt", JVal.num 5)], some 604800⟩,
                  ⟨"u:t2", [("issuedAt", JVal.num 6)], some 604800⟩] "u:t1"
      ∧ (∀ x ∈ ["u:t2"], rGet s1.store x
          = rGet [⟨"u:t1", [("issuedAt", JVal.num 5)], some 604800⟩,
                  ⟨"u:t2", [("issuedAt", JVal.num 6)], some 604800⟩] x)
      ∧ (∀ x ∈ ([] : List String), rGet s1.store x
          = (rGet [⟨"u:t1", [("issuedAt", JVal.num 5)], some 604800⟩,
                   ⟨"u:t2", [("issuedAt", JVal.num 6)], some 604800⟩] x).map
              (updateSessionObj (channelCount ⟨[], 1⟩) (chanSummaries ⟨[], 1⟩))) :=
  C1_partial_fanout_amended (fun k => k == "u:t1") "u"
    ⟨[⟨"b1", "tok", "BotA", ⟨0, 0, 0⟩, 0, 0⟩], some ⟨[], 0⟩,
     [⟨"u:t1", [("issuedAt", JVal.num 5)], some 604800⟩,
      ⟨"u:t2", [("issuedAt", JVal.num 6)], some 604800⟩]⟩
    ⟨[], 0⟩ [] ["u:t2"] "u:t1" (by rfl) (by decide) (by decide) (by decide)
    (by simp) (by decide)

/-- C5: synchronization is idempotent. If a run of
`syncTelegramChannelsCount` (resp. `syncTelegramChannelsData`) from state
`s` returns state `s1` (resp. `s2`), then running the same function again
with no intervening mutation performs no authoritative write (the
save-flag is `false`) and returns the state — hence every session
snapshot — unchanged, with the same reply. Distinct authoritative
`TelegramChannel` documents have distinct Mongo ids (`hnd`). -/
theorem C5_sync_idempotent (fails : String → Bool) (userId : String)
    (s : SyncState) (s1 : SyncState) (w1 : Bool) (r1 : CountResult)
    (s2 : SyncState) (w2 : Bool) (r2 : DataResult)
    (h1 : syncTelegramChannelsCount fails userId s = .ok (s1, w1, r1))
    (h2 : syncTelegramChannelsData fails userId s = .ok (s2, w2, r2))
    (hnd : (s.tchans.map TChan.id).Nodup) :
    syncTelegramChannelsCount fails userId s1 = .ok (s1, false, r1)
  ∧ syncTelegramChannelsData fails userId s2 = .ok (s2, false, r2) := by
  obtain ⟨user, hu⟩ : ∃ u, s.user = some u := by
    cases hus : s.user with
    | none =>
      rw [syncTelegramChannelsCount, hus] at h1
      exact absurd h1 (by simp)
    | some u => exact ⟨u, rfl⟩
  constructor
  · -- second count run is a no-op
    simp only [syncTelegramChannelsCount, hu] at h1
    by_cases hc : user.channelsCount ≠ s.tchans.length
    · rw [if_pos hc] at h1
      rw [Except.ok.injEq, Prod.mk.injEq, Prod.mk.injEq] at h1
      obtain ⟨hs1, _, hr1⟩ := h1
      subst hs1
      subst hr1
      simp only [syncTelegramChannelsCount]
      rw [if_neg (by simp)]
    · rw [if_neg hc] at h1
      rw [Except.ok.injEq, Prod.mk.injEq, Prod.mk.injEq] at h1
      obtain ⟨hs1, _, hr1⟩ := h1
      subst hs1
      subst hr1
      simp only [syncTelegramChannelsCount, hu]
      rw [if_neg hc]
  · -- second data run is a no-op
    simp only [syncTelegramChannelsData, hu] at h2
    by_cases hc : (s.tchans.foldl (syncDataStep user.channels)
        (user.channels.filter (fun c => !(c.channelType == "Telegram")), false)).2 = true
        ∨ user.channels.length ≠ (s.tchans.foldl (syncDataStep user.channels)
            (user.channels.filter (fun c => !(c.channelType == "Telegram")), false)).1.length
    · rw [if_pos hc] at h2
      rw [Except.ok.injEq, Prod.mk.injEq, Prod.mk.injEq] at h2
      obtain ⟨hs2, _, hr2⟩ := h2
      subst hs2
      subst hr2
      have F1 : (s.tchans.foldl (syncDataStep user.channels)
            (user.channels.filter (fun c => !(c.channelType == "Telegram")), false)).1
          = user.channels.filter (fun c => !(c.channelType == "Telegram"))
            ++ s.tchans.map (chanOut user.channels) :=
        foldl_syncDataStep_fst user.channels s.tchans _
      simp only [syncTelegramChannelsData]
      have hstart2 : ((s.tchans.foldl (syncDataStep user.channels)
            (user.channels.filter (fun c => !(c.channelType == "Telegram")), false)).1.filter
              (fun c => !(c.channelType == "Telegram")))
          = user.channels.filter (fun c => !(c.channelType == "Telegram")) := by
        rw [F1]
        exact filter_nonTel_run2 user.channels s.tchans
      rw [hstart2]
      have hsnd2 : (s.tchans.foldl
            (syncDataStep (s.tchans.foldl (syncDataStep user.channels)
              (user.channels.filter (fun c => !(c.channelType == "Telegram")), false)).1)
            (user.channels.filter (fun c => !(c.channelType == "Telegram")), false)).2
          = false := by
        rw [foldl_syncDataStep_snd]
        simp only [Bool.false_or]
        rw [List.any_eq_false]
        intro tc htc
        have hex : existingChannel (s.tchans.foldl (syncDataStep user.channels)
              (user.channels.filter (fun c => !(c.channelType == "Telegram")), false)).1 tc.id
            = some (chanOut user.channels tc) := by
          rw [F1]
          exact existingChannel_run2 user.channels _ s.tchans tc htc hnd
        simp only [chanChangedFlag, hex, chanOut_unchanged]
        simp
      have hfst2 : (s.tchans.foldl
            (syncDataStep (s.tchans.foldl (syncDataStep user.channels)
              (user.channels.filter (fun c => !(c.channelType == "Telegram")), false)).1)
            (user.channels.filter (fun c => !(c.channelType == "Telegram")), false)).1
          = user.channels.filter (fun c => !(c.channelType == "Telegram"))
            ++ s.tchans.map (chanOut (s.tchans.foldl (syncDataStep user.channels)
              (user.channels.filter (fun c => !(c.channelType == "Telegram")), false)).1) :=
        foldl_syncDataStep_fst _ s.tchans _
      rw [if_neg (by
        rw [hsnd2, hfst2, F1]
        simp [List.length_append, List.length_map])]
    · rw [if_neg hc] at h2
      rw [Except.ok.injEq, Prod.mk.injEq, Prod.mk.injEq] at h2
      obtain ⟨hs2, _, hr2⟩ := h2
      subst hs2
      subst hr2
      simp only [syncTelegramChannelsData, hu]
      rw [if_neg hc]

/-- C5 witness: a state already in sync re-runs as a no-op. -/
theorem C5_sync_idempotent_witness :
    syncTelegramChannelsCount noFail "u"
        ⟨[⟨"b1", "tok", "BotA", ⟨0, 0, 0⟩, 0, 0⟩],
         some ⟨[⟨"Telegram", "b1", "tok", "BotA", "", ⟨0, 0, 0⟩, 0, 0⟩], 1⟩,
         [⟨"u:t1", [("issuedAt", JVal.num 5)], some 604800⟩]⟩
      = .ok (⟨[⟨"b1", "tok", "BotA", ⟨0, 0, 0⟩, 0, 0⟩],
              some ⟨[⟨"Telegram", "b1", "tok", "BotA", "", ⟨0, 0, 0⟩, 0, 0⟩], 1⟩,
              [⟨"u:t1", [("issuedAt", JVal.num 5)], some 604800⟩]⟩,
             false, ⟨true, "u", 1⟩)
  ∧ syncTelegramChannelsData noFail "u"
        ⟨[⟨"b1", "tok", "BotA", ⟨0, 0, 0⟩, 0, 0⟩],
         some ⟨[⟨"Telegram", "b1", "tok", "BotA", "", ⟨0, 0, 0⟩, 0, 0⟩], 1⟩,
         [⟨"u:t1", [("issuedAt", JVal.num 5)], some 604800⟩]⟩
      = .ok (⟨[⟨"b1", "tok", "BotA", ⟨0, 0, 0⟩, 0, 0⟩],
              some ⟨[⟨"Telegram", "b1", "tok", "BotA", "", ⟨0, 0, 0⟩, 0, 0⟩], 1⟩,
              [⟨"u:t1", [("issuedAt", JVal.num 5)], some 604800⟩]⟩,
             false, ⟨true, "u", 1, 1⟩) :=
  C5_sync_idempotent noFail "u"
    ⟨[⟨"b1", "tok", "BotA", ⟨0, 0, 0⟩, 0, 0⟩],
     some ⟨[⟨"Telegram", "b1", "tok", "BotA", "", ⟨0, 0, 0⟩, 0, 0⟩], 1⟩,
     [⟨"u:t1", [("issuedAt", JVal.num 5)], some 604800⟩]⟩
    _ _ _ _ _ _ (by rfl) (by rfl) (by decide)

/-- C6: convergence under reordering. For an owner whose channels contain
neither bot, processing `handleNewTelegramBot tc` (ChannelAdded) before
`handleDeletedTelegramBot tc.id` (ChannelRemoved), interleaved in any of the
three relative positions with an unrelated mutation
(`handleNewTelegramBot tc2`), ends in the SAME final state: the same
authoritative user record with channel count `|channels| + 1`, and the same
fanned-out session snapshots, each carrying that same count. -/
theorem C6_convergence_under_reorder (userId : String) (s : SyncState)
    (user : UserDoc) (tc tc2 : TChan)
    (hu : s.user = some user)
    (hwf : rWF s.store)
    (h1 : user.channels.any (isTelWith tc.id) = false)
    (h2 : user.channels.any (isTelWith tc2.id) = false)
    (hne : tc.id ≠ tc2.id) :
    (afterNew userId tc s >>= fun sa =>
        afterDel userId tc.id sa >>= afterNew userId tc2)
      = .ok ⟨s.tchans,
             some ⟨user.channels ++ [buildChan tc2],
                   (user.channels ++ [buildChan tc2]).length⟩,
             updateRedisSession noFail userId
               ⟨user.channels ++ [buildChan tc2],
                (user.channels ++ [buildChan tc2]).length⟩ s.store⟩
  ∧ (afterNew userId tc s >>= fun sa =>
        afterNew userId tc2 sa >>= afterDel userId tc.id)
      = .ok ⟨s.tchans,
             some ⟨user.channels ++ [buildChan tc2],
                   (user.channels ++ [buildChan tc2]).length⟩,
             updateRedisSession noFail userId
               ⟨user.channels ++ [buildChan tc2],
                (user.channels ++ [buildChan tc2]).length⟩ s.store⟩
  ∧ (afterNew userId tc2 s >>= fun sa =>
        afterNew userId tc sa >>= afterDel userId tc.id)
      = .ok ⟨s.tchans,
             some ⟨user.channels ++ [buildChan tc2],
                   (user.channels ++ [buildChan tc2]).length⟩,
             updateRedisSession noFail userId
               ⟨user.channels ++ [buildChan tc2],
                (user.channels ++ [buildChan tc2]).length⟩ s.store⟩
  ∧ (user.channels ++ [buildChan tc2]).length = user.channels.length + 1
  ∧ (∀ k o, rGet s.store k = some o → matchesOwner userId k = true →
      rGet (updateRedisSession noFail userId
          ⟨user.channels ++ [buildChan tc2],
           (user.channels ++ [buildChan tc2]).length⟩ s.store) k
        = some (updateSessionObj
            (channelCount ⟨user.channels ++ [buildChan tc2],
              (user.channels ++ [buildChan tc2]).length⟩)
            (chanSummaries ⟨user.channels ++ [buildChan tc2],
              (user.channels ++ [buildChan tc2]).length⟩) o)) := by
  have bcT : isTelWith tc.id (buildChan tc) = true := by
    simp [isTelWith, buildChan]
  have bc2ofbc : isTelWith tc2.id (buildChan tc) = false := by
    simp [isTelWith, buildChan]
    intro hcon
    exact absurd hcon hne
  have bcofbc2 : isTelWith tc.id (buildChan tc2) = false := by
    simp [isTelWith, buildChan]
    intro hcon
    exact absurd hcon.symm hne
  have hL1 := all_false_of_any_false _ _ h1
  have hL2 := all_false_of_any_false _ _ h2
  -- the three elementary mutations, computed on each intermediate state
  have hA : afterNew userId tc s
      = .ok ⟨s.tchans,
             some ⟨user.channels ++ [buildChan tc],
                   (user.channels ++ [buildChan tc]).length⟩,
             updateRedisSession noFail userId
               ⟨user.channels ++ [buildChan tc],
                (user.channels ++ [buildChan tc]).length⟩ s.store⟩ := by
    simp only [afterNew, handleNewTelegramBot, hu]
    rw [if_pos h1]
    rfl
  have hU0 : afterNew userId tc2 s
      = .ok ⟨s.tchans,
             some ⟨user.channels ++ [buildChan tc2],
                   (user.channels ++ [buildChan tc2]).length⟩,
             updateRedisSession noFail userId
               ⟨user.channels ++ [buildChan tc2],
                (user.channels ++ [buildChan tc2]).length⟩ s.store⟩ := by
    simp only [afterNew, handleNewTelegramBot, hu]
    rw [if_pos h2]
    rfl
  refine ⟨?_, ?_, ?_, by simp, ?_⟩
  · -- Add tc; Remove tc; Add tc2
    rw [hA]
    show (afterDel userId tc.id _ >>= afterNew userId tc2) = _
    have hidx : (user.channels ++ [buildChan tc]).findIdx? (isTelWith tc.id)
        = some user.channels.length := by
      have h := findIdx_append_helper (isTelWith tc.id) user.channels [] (buildChan tc)
        0 hL1 bcT
      simpa using h
    have herase : (user.channels ++ [buildChan tc]).eraseIdx user.channels.length
        = user.channels := by
      have h := eraseIdx_append_helper user.channels [] (buildChan tc)
      simpa using h
    have hR : afterDel userId tc.id
        (⟨s.tchans,
          some ⟨user.channels ++ [buildChan tc],
                (user.channels ++ [buildChan tc]).length⟩,
          updateRedisSession noFail userId
            ⟨user.channels ++ [buildChan tc],
             (user.channels ++ [buildChan tc]).length⟩ s.store⟩ : SyncState)
        = .ok ⟨s.tchans, some ⟨user.channels, user.channels.length⟩,
               updateRedisSession noFail userId
                 ⟨user.channels, user.channels.length⟩
                 (updateRedisSession noFail userId
                   ⟨user.channels ++ [buildChan tc],
                    (user.channels ++ [buildChan tc]).length⟩ s.store)⟩ := by
      simp only [afterDel, handleDeletedTelegramBot, hidx]
      rw [herase]
      rfl
    rw [hR]
    show afterNew userId tc2 _ = _
    have hany : (user.channels.any (isTelWith tc2.id)) = false := h2
    simp only [afterNew, handleNewTelegramBot]
    rw [if_pos hany]
    have habsorb1 : updateRedisSession noFail userId
          ⟨user.channels, user.channels.length⟩
          (updateRedisSession noFail userId
            ⟨user.channels ++ [buildChan tc],
             (user.channels ++ [buildChan tc]).length⟩ s.store)
        = updateRedisSession noFail userId
            ⟨user.channels, user.channels.length⟩ s.store :=
      updateRedisSession_absorb userId _ _ s.store hwf
    rw [habsorb1,
        updateRedisSession_absorb userId _ _ s.store hwf]
    rfl
  · -- Add tc; Add tc2; Remove tc
    rw [hA]
    show (afterNew userId tc2 _ >>= afterDel userId tc.id) = _
    have hany2 : ((user.channels ++ [buildChan tc]).any (isTelWith tc2.id)) = false := by
      rw [List.any_append]
      simp [h2, bc2ofbc]
    have hU : afterNew userId tc2
        (⟨s.tchans,
          some ⟨user.channels ++ [buildChan tc],
                (user.channels ++ [buildChan tc]).length⟩,
          updateRedisSession noFail userId
            ⟨user.channels ++ [buildChan tc],
             (user.channels ++ [buildChan tc]).length⟩ s.store⟩ : SyncState)
        = .ok ⟨s.tchans,
               some ⟨user.channels ++ [buildChan tc] ++ [buildChan tc2],
                     (user.channels ++ [buildChan tc] ++ [buildChan tc2]).length⟩,
               updateRedisSession noFail userId
                 ⟨user.channels ++ [buildChan tc] ++ [buildChan tc2],
                  (user.channels ++ [buildChan tc] ++ [buildChan tc2]).length⟩
                 (updateRedisSession noFail userId
                   ⟨user.channels ++ [buildChan tc],
                    (user.channels ++ [buildChan tc]).length⟩ s.store)⟩ := by
      simp only [afterNew, handleNewTelegramBot]
      rw [if_pos hany2]
      rfl
    rw [hU]
    show afterDel userId tc.id _ = _
    have hsplit : user.channels ++ [buildChan tc] ++ [buildChan tc2]
        = user.channels ++ buildChan tc :: [buildChan tc2] := by
      simp
    have hidx2 : (user.channels ++ [buildChan tc] ++ [buildChan tc2]).findIdx?
        (isTelWith tc.id) = some user.channels.length := by
      rw [hsplit]
      have h := findIdx_append_helper (isTelWith tc.id) user.channels
        [buildChan tc2] (buildChan tc) 0 hL1 bcT
      simpa using h
    have herase2 : (user.channels ++ [buildChan tc] ++ [buildChan tc2]).eraseIdx
        user.channels.length = user.channels ++ [buildChan tc2] := by
      rw [hsplit]
      exact eraseIdx_append_helper user.channels [buildChan tc2] (buildChan tc)
    simp only [afterDel, handleDeletedTelegramBot, hidx2]
    rw [herase2]
    have habsorb1 : updateRedisSession noFail userId
          ⟨user.channels ++ [buildChan tc2],
           (user.channels ++ [buildChan tc2]).length⟩
          (updateRedisSession noFail userId
            ⟨user.channels ++ [buildChan tc] ++ [buildChan tc2],
             (user.channels ++ [buildChan tc] ++ [buildChan tc2]).length⟩
            (updateRedisSession noFail userId
              ⟨user.channels ++ [buildChan tc],
               (user.channels ++ [buildChan tc]).length⟩ s.store))
        = updateRedisSession noFail userId
            ⟨user.channels ++ [buildChan tc2],
             (user.channels ++ [buildChan tc2]).length⟩ s.store := by
      rw [updateRedisSession_absorb userId _ _ _
            (rWF_updateRedisSession userId _ s.store hwf),
          updateRedisSession_absorb userId _ _ s.store hwf]
    rw [habsorb1]
    rfl
  · -- Add tc2; Add tc; Remove tc
    rw [hU0]
    show (afterNew userId tc _ >>= afterDel userId tc.id) = _
    have hany3 : ((user.channels ++ [buildChan tc2]).any (isTelWith tc.id)) = false := by
      rw [List.any_append]
      simp [h1, bcofbc2]
    have hA3 : afterNew userId tc
        (⟨s.tchans,
          some ⟨user.channels ++ [buildChan tc2],
                (user.channels ++ [buildChan tc2]).length⟩,
          updateRedisSession noFail userId
            ⟨user.channels ++ [buildChan tc2],
             (user.channels ++ [buildChan tc2]).length⟩ s.store⟩ : SyncState)
        = .ok ⟨s.tchans,
               some ⟨user.channels ++ [buildChan tc2] ++ [buildChan tc],
                     (user.channels ++ [buildChan tc2] ++ [buildChan tc]).length⟩,
               updateRedisSession noFail userId
                 ⟨user.channels ++ [buildChan tc2] ++ [buildChan tc],
                  (user.channels ++ [buildChan tc2] ++ [buildChan tc]).length⟩
                 (updateRedisSession noFail userId
                   ⟨user.channels ++ [buildChan tc2],
                    (user.channels ++ [buildChan tc2]).length⟩ s.store)⟩ := by
      simp only [afterNew, handleNewTelegramBot]
      rw [if_pos hany3]
      rfl
    rw [hA3]
    show afterDel userId tc.id _ = _
    have hpre : ∀ c ∈ user.channels ++ [buildChan tc2], isTelWith tc.id c = false := by
      intro c hc
      rcases List.mem_append.mp hc with h | h
      · exact hL1 c h
      · rw [List.mem_singleton.mp h]
        exact bcofbc2
    have hidx3 : (user.channels ++ [buildChan tc2] ++ [buildChan tc]).findIdx?
        (isTelWith tc.id) = some (user.channels ++ [buildChan tc2]).length := by
      have h := findIdx_append_helper (isTelWith tc.id)
        (user.channels ++ [buildChan tc2]) [] (buildChan tc) 0 hpre bcT
      simpa using h
    have herase3 : (user.channels ++ [buildChan tc2] ++ [buildChan tc]).eraseIdx
        (user.channels ++ [buildChan tc2]).length
        = user.channels ++ [buildChan tc2] := by
      have h := eraseIdx_append_helper (user.channels ++ [buildChan tc2]) []
        (buildChan tc)
      simpa using h
    simp only [afterDel, handleDeletedTelegramBot, hidx3]
    rw [herase3]
    have habsorb3 : updateRedisSession noFail userId
          ⟨user.channels ++ [buildChan tc2],
           (user.channels ++ [buildChan tc2]).length⟩
          (updateRedisSession noFail userId
            ⟨user.channels ++ [buildChan tc2] ++ [buildChan tc],
             (user.channels ++ [buildChan tc2] ++ [buildChan tc]).length⟩
            (updateRedisSession noFail userId
              ⟨user.channels ++ [buildChan tc2],
               (user.channels ++ [buildChan tc2]).length⟩ s.store))
        = updateRedisSession noFail userId
            ⟨user.channels ++ [buildChan tc2],
             (user.channels ++ [buildChan tc2]).length⟩ s.store := by
      rw [updateRedisSession_absorb userId _ _ _
            (rWF_updateRedisSession userId _ s.store hwf),
          updateRedisSession_absorb userId _ _ s.store hwf]
    rw [habsorb3]
    rfl
  · -- the final fan-out rewrites every live snapshot with the same summary
    intro k o hk hm
    rw [updateRedisSession_closed userId _ s.store hwf, rGet_map_fanout,
        if_pos hm, hk]
    rfl

/-- C6 witness: an owner with one live session, an empty channel list, and
two distinct bots. -/
theorem C6_convergence_under_reorder_witness :
    (afterNew "u" ⟨"b1", "tok1", "BotA", ⟨0, 0, 0⟩, 0, 0⟩
        ⟨[], some ⟨[], 0⟩, [⟨"u:t1", [("issuedAt", JVal.num 5)], some 604800⟩]⟩
      >>= fun sa => afterDel "u" "b1" sa
      >>= afterNew "u" ⟨"b2", "tok2", "BotB", ⟨0, 0, 0⟩, 0, 0⟩)
      = .ok ⟨[], some ⟨[] ++ [buildChan ⟨"b2", "tok2", "BotB", ⟨0, 0, 0⟩, 0, 0⟩],
                       ([] ++ [buildChan ⟨"b2", "tok2", "BotB", ⟨0, 0, 0⟩, 0, 0⟩]).length⟩,
              updateRedisSession noFail "u"
                ⟨[] ++ [buildChan ⟨"b2", "tok2", "BotB", ⟨0, 0, 0⟩, 0, 0⟩],
                 ([] ++ [buildChan ⟨"b2", "tok2", "BotB", ⟨0, 0, 0⟩, 0, 0⟩]).length⟩
                [⟨"u:t1", [("issuedAt", JVal.num 5)], some 604800⟩]⟩ :=
  (C6_convergence_under_reorder "u"
    ⟨[], some ⟨[], 0⟩, [⟨"u:t1", [("issuedAt", JVal.num 5)], some 604800⟩]⟩
    ⟨[], 0⟩ ⟨"b1", "tok1", "BotA", ⟨0, 0, 0⟩, 0, 0⟩
    ⟨"b2", "tok2", "BotB", ⟨0, 0, 0⟩, 0, 0⟩
    (by rfl) (by decide) (by rfl) (by rfl) (by decide)).1

/-- C10: every request to the auth-service logout endpoint gets its cookie
cleared and a 200/success response, but since no middleware on that route
attaches `req.userId` or `req.sessionToken`, the handler's conditional Redis
delete never fires and the store — hence any live session record in it — is
returned unchanged. -/
theorem C10_logout_leaves_record_live (redisOpen : Bool) (st : Store) :
    logoutHandler (bareAuthRequest redisOpen) st = (⟨200, true, true⟩, st) := rfl

end SBackend
